import Mathlib

/-!
Verification of the multi-speaker audio session manager of
`discord-voice-recognizer` (src/main.rs, src/recognize.rs) against its
specification.  The session logic is shallowly embedded: the two
mutex-protected `HashMap`s of `State` become total functions into `Option`,
`u32` stream identifiers become `Nat` (only key equality is used), `i16`
samples become `Int` (only comparison with zero and concatenation are used),
panics (`unwrap`, `panic!`, `unimplemented!`) become `Except.error`, and the
single suspension point (the transcription request) is abstracted as a
function from the accumulated sample list to an optional transcript, since
the WAV file written and immediately read back carries exactly the drained
samples.
-/

namespace DiscordVoice

/-- A decoded PCM sample.  The source uses `i16`; the session logic only
compares samples with zero and concatenates them, so `Int` is faithful. -/
abbrev Sample := Int

/-- Embeds `State` (src/main.rs:39-43): the shared per-connection session
state.  `audio_buffer_map : HashMap<u32, Vec<i16>>` and
`users_ssrc_map : HashMap<u32, String>` are modelled as total functions into
`Option`.  The `recognizer` trait object is stateless; its behaviour is
passed to `act` as a function parameter instead of being stored. -/
structure State where
  audio_buffer_map : Nat → Option (List Sample)
  users_ssrc_map : Nat → Option String

/-- Embeds `Receiver::update_audio_buffer` (src/main.rs:60-75): fetches the
entry for `ssrc`, inserting an empty vector when absent (`entry.or_insert`),
and extends it with every sample of `audio` whose value is not zero
(`filter(|&x| *x != 0)`), preserving their order. -/
def update_audio_buffer (audio : List Sample) (ssrc : Nat) (st : State) : State :=
  let user_audio_buffer := (st.audio_buffer_map ssrc).getD []
  { st with
    audio_buffer_map := fun s =>
      if s = ssrc then some (user_audio_buffer ++ audio.filter (fun x => x != 0))
      else st.audio_buffer_map s }

/-- Embeds the buffer read performed by the speaking-stop arm
(src/main.rs:146): `audio_buffer.get(&data.ssrc)` before the `unwrap`. -/
def stopReadBuffer (st : State) (ssrc : Nat) : Option (List Sample) :=
  st.audio_buffer_map ssrc

/-- Delivery of a sequence of decoded audio packets for one identifier, in
arrival order; each is handled by `update_audio_buffer`
(src/main.rs:182-200). -/
def processPackets (ssrc : Nat) (events : List (List Sample)) (st : State) : State :=
  events.foldl (fun s a => update_audio_buffer a ssrc s) st

/-- Embeds the insertion into `users_ssrc_map` performed by the
speaking-state-update arm (src/main.rs:129-135):
`users_ssrc_map.insert(*ssrc, user_id.unwrap().0.to_string())`. -/
def bindUser (uid : Nat) (ssrc : Nat) (st : State) : State :=
  { st with
    users_ssrc_map := fun s =>
      if s = ssrc then some (toString uid) else st.users_ssrc_map s }

/-- The inbound event kinds matched by `Receiver::act` (src/main.rs:104-222).
`speakingStateUpdate` carries the optional `user_id` (the source unwraps it);
`voicePacket` carries `data.audio : Option<Vec<i16>>`; `other` stands for
every `EventContext` variant reaching the `_ =>` arm. -/
inductive EventCtx where
  | speakingStateUpdate (ssrc : Nat) (userId : Option Nat)
  | speakingUpdate (ssrc : Nat) (speaking : Bool)
  | voicePacket (ssrc : Nat) (audio : Option (List Sample))
  | rtcpPacket
  | clientDisconnect (userId : Nat)
  | other

/-- Embeds `Receiver::act` (src/main.rs:104-225).  The return value pairs the
updated session state with the list of announcements sent via
`channel_id.say`; `Except.error` models a panic.  `transcribe` abstracts the
encode/read/transcribe pipeline (src/main.rs:152-160): the WAV file written
by `write_audio_to_file` and read straight back holds exactly the drained
samples, so the recognizer is applied to the sample list directly (the
failure paths inside the pipeline are embedded separately as
`write_audio_to_file` and `GoogleSpeechRecognizer.execute`).
Branches, in source order:
* speaking-state-update (129-135): `user_id.unwrap()` (panic on `None`),
  then insert into `users_ssrc_map`;
* speaking-update true (138-140): log only;
* speaking-update false (141-180): `get(&ssrc).unwrap()` (panic when the
  buffer is absent), early return on empty buffer, transcribe, announce and
  remove the buffer on `Some`, early return without removal on `None`;
* voice-packet (182-204): append when decoded audio is present, log only
  when absent;
* rtcp-packet (205-209) and client-disconnect (210-217): log only;
* any other event (218-221): `unimplemented!()` (panic). -/
def act (transcribe : List Sample → Option String) (ev : EventCtx) (st : State) :
    Except String (State × List String) :=
  match ev with
  | .speakingStateUpdate ssrc userId =>
    match userId with
    | none => .error "called Option::unwrap() on a None value"
    | some uid => .ok (bindUser uid ssrc st, [])
  | .speakingUpdate ssrc speaking =>
    match speaking with
    | true => .ok (st, [])
    | false =>
      match st.audio_buffer_map ssrc with
      | none => .error "called Option::unwrap() on a None value"
      | some user_audio_buffer =>
        if user_audio_buffer.length = 0 then .ok (st, [])
        else
          match transcribe user_audio_buffer with
          | some transcription =>
            .ok ({ st with
                    audio_buffer_map := fun s =>
                      if s = ssrc then none else st.audio_buffer_map s },
                 [toString ssrc ++ " disse: " ++ transcription])
          | none => .ok (st, [])
  | .voicePacket ssrc audio =>
    match audio with
    | some a => .ok (update_audio_buffer a ssrc st, [])
    | none => .ok (st, [])
  | .rtcpPacket => .ok (st, [])
  | .clientDisconnect _ => .ok (st, [])
  | .other => .error "not implemented"

/-- The state after `act`, the input state when `act` panicked. -/
def actState (transcribe : List Sample → Option String) (ev : EventCtx) (st : State) : State :=
  match act transcribe ev st with
  | .ok (s, _) => s
  | .error _ => st

/-- The announcements sent by `act`, empty when `act` panicked. -/
def actMsgs (transcribe : List Sample → Option String) (ev : EventCtx) (st : State) : List String :=
  match act transcribe ev st with
  | .ok (_, m) => m
  | .error _ => []

/-- A fresh session state: no buffers, no identities (src/main.rs:293-304). -/
def stFresh : State := ⟨fun _ => none, fun _ => none⟩

/-- A state whose identifier 3 holds the accumulated samples `[1, 2]`. -/
def stBuf : State := ⟨fun s => if s = 3 then some [1, 2] else none, fun _ => none⟩

/-- A state whose identifier 4 holds a created-but-empty buffer (every
appended packet was all-zero). -/
def stEmpty : State := ⟨fun s => if s = 4 then some [] else none, fun _ => none⟩

/-- A state whose identifier 7 holds samples `[10, 20, 30]` and is bound to
speaker `"alice"` in the identity map. -/
def stAlice : State :=
  ⟨fun s => if s = 7 then some [10, 20, 30] else none,
   fun s => if s = 7 then some "alice" else none⟩

/-- A state whose identifier 7 holds samples `[10, 20, 30]`, with no
identity bound. -/
def stBuf7 : State :=
  ⟨fun s => if s = 7 then some [10, 20, 30] else none, fun _ => none⟩

/-- A state whose identifier 7 holds the single sample `[5]`. -/
def stPre : State := ⟨fun s => if s = 7 then some [5] else none, fun _ => none⟩

/-- Outcome of one fallible step of the `hound` WAV writer. -/
inductive WavResult where
  | ok
  | err (msg : String)

/-- Embeds the error handling of `Receiver::write_audio_to_file`
(src/main.rs:77-98), with the outcome of each fallible `hound` operation
supplied as an oracle: `create` is the result of `WavWriter::create` (the
source calls `.unwrap()` on it, so a failure panics — `Except.error`);
`writes` are the per-sample results of `write_sample`, each handled by
`unwrap_or_else` that only prints `"Error writing sample: ..."`; `fin` is
the result of `finalize`, likewise only printed
(`"Error finalizing wav file: ..."`).  The returned list holds the error
lines printed on the recovered paths. -/
def write_audio_to_file (create : WavResult) (writes : List WavResult) (fin : WavResult) :
    Except String (List String) :=
  match create with
  | .err e => .error e
  | .ok =>
    let writeLogs := writes.filterMap fun r =>
      match r with
      | .ok => none
      | .err e => some ("Error writing sample: " ++ e)
    let finLogs :=
      match fin with
      | .ok => []
      | .err e => ["Error finalizing wav file: " ++ e]
    .ok (writeLogs ++ finLogs)

/-- The `hound::WavSpec` fields. -/
structure WavSpec where
  channels : Nat
  sample_rate : Nat
  bits_per_sample : Nat

/-- The `hound::WavSpec` constructed by `Receiver::write_audio_to_file`
(src/main.rs:80-85): `channels: 2, sample_rate: 44100, bits_per_sample: 16`. -/
def writeAudioWavSpec : WavSpec :=
  { channels := 2, sample_rate := 44100, bits_per_sample := 16 }

/-- The `config` object of the Google Speech request body built by
`GoogleSpeechRecognizer::execute` (src/recognize.rs:50-55). -/
structure GoogleRequestConfig where
  sampleRateHertz : Nat
  languageCode : String
  audioChannelCount : Nat

/-- The concrete request `config` of src/recognize.rs:51-55:
`sampleRateHertz: 44100, languageCode: "pt-BR", audioChannelCount: 1`. -/
def googleRequestConfig : GoogleRequestConfig :=
  { sampleRateHertz := 44100, languageCode := "pt-BR", audioChannelCount := 1 }

/-- Embeds `GoogleSpeechAlternative` (src/recognize.rs:14-18).  `confidence`
is an `f32` in the source; it is modelled as `Int`, which the claims never
exercise arithmetically. -/
structure GoogleSpeechAlternative where
  transcript : String
  confidence : Int

/-- Embeds `GoogleSpeechResult` (src/recognize.rs:20-23). -/
structure GoogleSpeechResult where
  alternatives : List GoogleSpeechAlternative

/-- Embeds `GoogleSpeechSuccessResponse` (src/recognize.rs:25-28). -/
structure GoogleSpeechSuccessResponse where
  results : List GoogleSpeechResult

/-- Embeds `GoogleSpeechSuccessResponse::get_best_alternative`
(src/recognize.rs:30-36): `results.first()?` then
`alternatives.iter().max_by(confidence)`.  Rust's `max_by` returns the last
of several equal maxima, hence the `≤` in the fold. -/
def GoogleSpeechSuccessResponse.get_best_alternative
    (r : GoogleSpeechSuccessResponse) : Option GoogleSpeechAlternative :=
  match r.results.head? with
  | none => none
  | some first =>
    first.alternatives.foldl
      (fun acc a =>
        match acc with
        | none => some a
        | some b => if b.confidence ≤ a.confidence then some a else some b)
      none

/-- The possible outcomes of the HTTP round trip inside
`GoogleSpeechRecognizer::execute`, supplied as an oracle:
`transportError` is `reqwest::send` returning `Err`; `jsonError` is
`response.json()` returning `Err`; `parsed none` is a body that failed to
deserialize as `GoogleSpeechSuccessResponse` (the `Err(())` branch);
`parsed (some r)` is a successfully deserialized body. -/
inductive GoogleResponse where
  | transportError (msg : String)
  | jsonError (msg : String)
  | parsed (r : Option GoogleSpeechSuccessResponse)

/-- Embeds the control flow of `GoogleSpeechRecognizer::execute`
(src/recognize.rs:39-102).  `apiKey` is `env::var("GOOGLE_API_KEY")`
(`unwrap`ped — panic when absent).  A transport error reaches
`unwrap_or_else(|e| { println!(...); panic!() })` (src/recognize.rs:69-72);
a JSON-decode error reaches `response_json.unwrap()` (src/recognize.rs:79);
a deserialization failure becomes `None` (the `Err(_)` match arm,
src/recognize.rs:97-100); on success `get_best_alternative().expect(...)`
panics when no alternative exists (src/recognize.rs:87-89), otherwise the
best transcript is returned.  `Except.error` models a panic. -/
def GoogleSpeechRecognizer.execute (apiKey : Option String)
    (response : GoogleResponse) : Except String (Option String) :=
  match apiKey with
  | none => .error "GOOGLE_API_KEY environment variable not set"
  | some _ =>
    match response with
    | .transportError e => .error ("Error sending request: " ++ e)
    | .jsonError e => .error ("called Result::unwrap() on an Err value: " ++ e)
    | .parsed none => .ok none
    | .parsed (some resp) =>
      match resp.get_best_alternative with
      | none => .error "Failed to get best alternative"
      | some best => .ok (some best.transcript)

/-- The locks of the session (src/main.rs:39-49): the outer `state` mutex of
`Receiver`, and the three inner mutexes of `State`. -/
inductive LockId where
  | stateLock
  | audioBufferMapLock
  | usersSsrcMapLock
  | recognizerLock
deriving DecidableEq

/-- One step of a handler's lock/suspension trace. -/
inductive TraceStep where
  | acquire (l : LockId)
  | release (l : LockId)
  | transcribeCall
  | announceCall
deriving DecidableEq

/-- Lock trace of the successful speaking-stop path (src/main.rs:144-180):
`self.state.lock()` (144), `state.audio_buffer_map.lock()` (145),
`state.recognizer.lock()` (159), the suspended `recognizer.execute` call
(160), the suspended `channel_id.say` call (165-172), then the guards drop
in reverse declaration order at the end of the match arm. -/
def speakingStopSuccessTrace : List TraceStep :=
  [.acquire .stateLock, .acquire .audioBufferMapLock, .acquire .recognizerLock,
   .transcribeCall, .announceCall,
   .release .recognizerLock, .release .audioBufferMapLock, .release .stateLock]

/-- Lock trace of `Receiver::update_audio_buffer` (src/main.rs:60-75):
`self.state.lock()` (61) then `state.audio_buffer_map.lock()` (63), both
held until the function returns. -/
def updateAudioBufferTrace : List TraceStep :=
  [.acquire .stateLock, .acquire .audioBufferMapLock,
   .release .audioBufferMapLock, .release .stateLock]

/-- Lock trace of the speaking-state-update arm (src/main.rs:129-135):
`self.state.lock()` then `users_ssrc_map.lock()`, both held across the
insert, dropped at the end of the statement. -/
def speakingStateUpdateTrace : List TraceStep :=
  [.acquire .stateLock, .acquire .usersSsrcMapLock,
   .release .usersSsrcMapLock, .release .stateLock]

/-- The locks held when the first `transcribeCall` of the trace is reached
(`none` when the trace never calls the transcriber). -/
def locksHeldAtTranscribe : List TraceStep → List LockId → Option (List LockId)
  | [], _ => none
  | .transcribeCall :: _, held => some held
  | .acquire l :: rest, held => locksHeldAtTranscribe rest (held ++ [l])
  | .release l :: rest, held => locksHeldAtTranscribe rest (held.erase l)
  | .announceCall :: rest, held => locksHeldAtTranscribe rest held

/-- Every lock a trace ever acquires. -/
def acquiredLocks (tr : List TraceStep) : List LockId :=
  tr.filterMap fun s =>
    match s with
    | .acquire l => some l
    | _ => none

/-- After one `update_audio_buffer`, the buffer for `ssrc` holds its previous
content followed by the non-zero samples of the new packet. -/
theorem update_audio_buffer_self (a : List Sample) (ssrc : Nat) (st : State) :
    (update_audio_buffer a ssrc st).audio_buffer_map ssrc
      = some (((st.audio_buffer_map ssrc).getD []) ++ a.filter (fun v => v != 0)) := by
  simp [update_audio_buffer]

/-- Delivering a packet sequence extends an existing buffer by the non-zero
samples of the flattened sequence, in order. -/
theorem processPackets_buffer (ssrc : Nat) (events : List (List Sample)) :
    ∀ (st : State) (b : List Sample), st.audio_buffer_map ssrc = some b →
      (processPackets ssrc events st).audio_buffer_map ssrc
        = some (b ++ events.flatten.filter (fun v => v != 0)) := by
  induction events with
  | nil =>
    intro st b h
    simpa [processPackets] using h
  | cons e es ih =>
    intro st b h
    have h2 : (update_audio_buffer e ssrc st).audio_buffer_map ssrc
        = some (b ++ e.filter (fun v => v != 0)) := by
      rw [update_audio_buffer_self, h]
      rfl
    have h3 := ih (update_audio_buffer e ssrc st) _ h2
    simpa [processPackets, List.filter_append, List.append_assoc] using h3

/-- The speaking-stop arm on a present, non-empty buffer whose transcription
succeeds: the buffer is removed and one announcement, built from the raw
`ssrc`, is sent (src/main.rs:141-180). -/
theorem act_stop_some (tr : List Sample → Option String) (st : State) (id : Nat)
    (buf : List Sample) (t : String) (hbuf : st.audio_buffer_map id = some buf)
    (hne : buf ≠ []) (ht : tr buf = some t) :
    act tr (.speakingUpdate id false) st
      = .ok ({ st with
                audio_buffer_map := fun s => if s = id then none else st.audio_buffer_map s },
             [toString id ++ " disse: " ++ t]) := by
  have hlen : ¬ buf.length = 0 := by simpa [List.length_eq_zero] using hne
  simp [act, hbuf, hlen, ht]

/-- The speaking-stop arm on a present, non-empty buffer whose transcription
returns no result: early return, state untouched, buffer retained
(src/main.rs:173-176). -/
theorem act_stop_none (tr : List Sample → Option String) (st : State) (id : Nat)
    (buf : List Sample) (hbuf : st.audio_buffer_map id = some buf)
    (hne : buf ≠ []) (ht : tr buf = none) :
    act tr (.speakingUpdate id false) st = .ok (st, []) := by
  have hlen : ¬ buf.length = 0 := by simpa [List.length_eq_zero] using hne
  simp [act, hbuf, hlen, ht]

/-- Claim C1: for every sequence of audio-packet events for one stream
identifier, starting with no buffer for it, the buffer read at the next
speaking-stop equals the concatenation, in arrival order, of exactly the
non-zero samples of those events. -/
theorem c1_nonzero_concat (st : State) (x : Nat) (e : List Sample)
    (es : List (List Sample)) (h : st.audio_buffer_map x = none) :
    stopReadBuffer (processPackets x (e :: es) st) x
      = some ((e :: es).flatten.filter (fun v => v != 0)) := by
  have h1 : (update_audio_buffer e x st).audio_buffer_map x
      = some (e.filter (fun v => v != 0)) := by
    rw [update_audio_buffer_self, h]
    simp
  have h3 := processPackets_buffer x es (update_audio_buffer e x st) _ h1
  simpa [stopReadBuffer, processPackets, List.filter_append] using h3

/-- Witness for C1: packets `[10, 0, 20]` then `[0, 30]` for identifier 7 on
a fresh state leave exactly `[10, 20, 30]` to be read at speaking-stop. -/
theorem c1_nonzero_concat_witness :
    stFresh.audio_buffer_map 7 = none
    ∧ stopReadBuffer (processPackets 7 [[10, 0, 20], [0, 30]] stFresh) 7
      = some [10, 20, 30] := by
  refine ⟨rfl, ?_⟩
  rw [c1_nonzero_concat stFresh 7 [10, 0, 20] [[0, 30]] rfl]
  rfl

/-- Counterexample to C2: with buffer `[1, 2]` accumulated for identifier 3
and a transcription that returns no result, the speaking-stop handler leaves
the buffer in the store — it has not been removed before (or after) the
transcription call, contradicting the claimed removal-before-call. -/
theorem c2_counterexample :
    (actState (fun _ => none) (.speakingUpdate 3 false) stBuf).audio_buffer_map 3
      = some [1, 2] := rfl

/-- Claim C2 as amended: the speaking-stop handler removes the buffer only
after a successful transcription; when the transcription service returns no
result the handler returns early with the buffer still present, so the same
samples can be re-finalized by a later speaking-stop. -/
theorem c2_amended (tr : List Sample → Option String) (st : State) (id : Nat)
    (buf : List Sample) (hbuf : st.audio_buffer_map id = some buf) (hne : buf ≠ []) :
    (∀ t, tr buf = some t →
      act tr (.speakingUpdate id false) st
        = .ok ({ st with
                  audio_buffer_map := fun s => if s = id then none else st.audio_buffer_map s },
               [toString id ++ " disse: " ++ t]))
    ∧ (tr buf = none → act tr (.speakingUpdate id false) st = .ok (st, [])) :=
  ⟨fun t ht => act_stop_some tr st id buf t hbuf hne ht,
   fun ht => act_stop_none tr st id buf hbuf hne ht⟩

/-- Witness for the amended C2 at buffer `[1, 2]`, transcript `"oi"`. -/
theorem c2_amended_witness :
    act (fun _ => some "oi") (.speakingUpdate 3 false) stBuf
      = .ok ({ stBuf with
                audio_buffer_map := fun s => if s = 3 then none else stBuf.audio_buffer_map s },
             [toString 3 ++ " disse: " ++ "oi"]) :=
  (c2_amended (fun _ => some "oi") stBuf 3 [1, 2] rfl (by decide)).1 "oi" rfl

/-- Counterexample to C3: a speaking-stop for identifier 5, whose buffer was
never created, panics (`get(&ssrc).unwrap()` on `None`, src/main.rs:146)
instead of completing with no further action. -/
theorem c3_counterexample :
    act (fun _ => some "x") (.speakingUpdate 5 false) stFresh
      = .error "called Option::unwrap() on a None value" := rfl

/-- Claim C3 as amended: when the buffer for the identifier is present but
empty, the speaking-stop handler completes with no state change and no
announcement; the absent-buffer case instead panics. -/
theorem c3_amended (tr : List Sample → Option String) (st : State) (id : Nat)
    (h : st.audio_buffer_map id = some []) :
    act tr (.speakingUpdate id false) st = .ok (st, []) := by
  simp [act, h]

/-- Witness for the amended C3 at identifier 4 with an empty buffer. -/
theorem c3_amended_witness :
    act (fun _ => some "x") (.speakingUpdate 4 false) stEmpty = .ok (stEmpty, []) :=
  c3_amended (fun _ => some "x") stEmpty 4 rfl

/-- Counterexample to C4: identifier 7 is bound to speaker `"alice"`, a
transcript `"hello"` is produced, yet the announcement is
`"7 disse: hello"`, not `"alice disse: hello"` — the resolver binding is
ignored. -/
theorem c4_counterexample :
    stAlice.users_ssrc_map 7 = some "alice"
    ∧ actMsgs (fun _ => some "hello") (.speakingUpdate 7 false) stAlice
      = ["7 disse: hello"]
    ∧ actMsgs (fun _ => some "hello") (.speakingUpdate 7 false) stAlice
      ≠ ["alice disse: hello"] := by
  refine ⟨rfl, rfl, ?_⟩
  decide

/-- Claim C4 as amended: for every finalization that obtains a successful
transcript, the announcement attributes the transcript to the raw stream
identifier, whatever identity the resolver holds. -/
theorem c4_amended (tr : List Sample → Option String) (st : State) (id : Nat)
    (buf : List Sample) (t : String) (hbuf : st.audio_buffer_map id = some buf)
    (hne : buf ≠ []) (ht : tr buf = some t) :
    actMsgs tr (.speakingUpdate id false) st = [toString id ++ " disse: " ++ t] := by
  simp [actMsgs, act_stop_some tr st id buf t hbuf hne ht]

/-- Witness for the amended C4: even with `"alice"` bound to identifier 7,
the announcement uses the raw identifier. -/
theorem c4_amended_witness :
    actMsgs (fun _ => some "hello") (.speakingUpdate 7 false) stAlice
      = [toString 7 ++ " disse: " ++ "hello"] :=
  c4_amended (fun _ => some "hello") stAlice 7 [10, 20, 30] "hello" rfl (by decide) rfl

/-- Counterexample to C5: a transcription transport failure reaches
`unwrap_or_else(|e| { println!(...); panic!() })` (src/recognize.rs:69-72)
and panics instead of being recovered by logging. -/
theorem c5_counterexample :
    GoogleSpeechRecognizer.execute (some "key") (.transportError "connection reset")
      = .error ("Error sending request: " ++ "connection reset") := rfl

/-- Claim C5 as amended: per-sample write failures and WAV-finalize failures
are recovered locally by logging, but a WAV-create failure panics (`unwrap`,
src/main.rs:78-87) and a transcription transport failure panics (`panic!`,
src/recognize.rs:69-72) rather than being recovered. -/
theorem c5_amended :
    (∀ (writes : List WavResult) (fin : WavResult),
        ∃ logs, write_audio_to_file .ok writes fin = .ok logs)
    ∧ (∀ e, write_audio_to_file (.err e) [] .ok = .error e)
    ∧ (∀ k e, GoogleSpeechRecognizer.execute (some k) (.transportError e)
        = .error ("Error sending request: " ++ e)) :=
  ⟨fun _ _ => ⟨_, rfl⟩, fun _ => rfl, fun _ _ => rfl⟩

/-- Claim C6, evaluated on the code: the WAV header written by
`write_audio_to_file` declares two channels (stereo), while the Google
request config of the very same pipeline declares one channel — the sample
rate and bit depth do match the claim. -/
theorem c6_wav_channels :
    writeAudioWavSpec.channels = 2
    ∧ writeAudioWavSpec.sample_rate = 44100
    ∧ writeAudioWavSpec.bits_per_sample = 16
    ∧ googleRequestConfig.audioChannelCount = 1 :=
  ⟨rfl, rfl, rfl, rfl⟩

/-- Counterexample to C7: after binding identity 42 to identifier 7, the
finalizer report still uses the raw identifier — `"7 disse: hello"`, not
`"42 disse: hello"` — so the report does not use the most recently bound
identity. -/
theorem c7_counterexample :
    (actState (fun _ => some "hello") (.speakingStateUpdate 7 (some 42)) stBuf7).users_ssrc_map 7
      = some "42"
    ∧ actMsgs (fun _ => some "hello") (.speakingUpdate 7 false)
        (actState (fun _ => some "hello") (.speakingStateUpdate 7 (some 42)) stBuf7)
      = ["7 disse: hello"]
    ∧ actMsgs (fun _ => some "hello") (.speakingUpdate 7 false)
        (actState (fun _ => some "hello") (.speakingStateUpdate 7 (some 42)) stBuf7)
      ≠ ["42 disse: hello"] := by
  refine ⟨by decide, rfl, by decide⟩

/-- Claim C7 as amended: identity binding is last-write-wins and leaves
every buffer unchanged, but the finalizer report does not use the bound
identity — it uses the raw stream identifier. -/
theorem c7_amended (tr : List Sample → Option String) (st : State) (id a b : Nat) :
    (actState tr (.speakingStateUpdate id (some b))
        (actState tr (.speakingStateUpdate id (some a)) st)).users_ssrc_map id
      = some (toString b)
    ∧ (∀ s, (actState tr (.speakingStateUpdate id (some b))
          (actState tr (.speakingStateUpdate id (some a)) st)).audio_buffer_map s
        = st.audio_buffer_map s)
    ∧ (∀ (buf : List Sample) (t : String),
        st.audio_buffer_map id = some buf → buf ≠ [] → tr buf = some t →
        actMsgs tr (.speakingUpdate id false)
            (actState tr (.speakingStateUpdate id (some b))
              (actState tr (.speakingStateUpdate id (some a)) st))
          = [toString id ++ " disse: " ++ t]) := by
  refine ⟨?_, fun s => rfl, ?_⟩
  · simp [actState, act, bindUser]
  · intro buf t hbuf hne ht
    have h2 : (actState tr (.speakingStateUpdate id (some b))
        (actState tr (.speakingStateUpdate id (some a)) st)).audio_buffer_map id
        = some buf := hbuf
    simp [actMsgs,
      act_stop_some tr
        (actState tr (.speakingStateUpdate id (some b))
          (actState tr (.speakingStateUpdate id (some a)) st)) id buf t h2 hne ht]

/-- Witness for the amended C7: binding 1 then 2 to identifier 7 leaves
lookup at `toString 2`, and the subsequent report uses the raw
identifier 7. -/
theorem c7_amended_witness :
    (actState (fun _ => some "hi") (.speakingStateUpdate 7 (some 2))
        (actState (fun _ => some "hi") (.speakingStateUpdate 7 (some 1)) stBuf7)).users_ssrc_map 7
      = some (toString 2)
    ∧ actMsgs (fun _ => some "hi") (.speakingUpdate 7 false)
        (actState (fun _ => some "hi") (.speakingStateUpdate 7 (some 2))
          (actState (fun _ => some "hi") (.speakingStateUpdate 7 (some 1)) stBuf7))
      = [toString 7 ++ " disse: " ++ "hi"] :=
  ⟨(c7_amended (fun _ => some "hi") stBuf7 7 1 2).1,
   (c7_amended (fun _ => some "hi") stBuf7 7 1 2).2.2 [10, 20, 30] "hi" rfl (by decide) rfl⟩

/-- Counterexample to C8: on the successful speaking-stop path, the Sample
Buffer Store lock is among the locks held at the moment the transcription
call suspends. -/
theorem c8_counterexample :
    LockId.audioBufferMapLock ∈ (locksHeldAtTranscribe speakingStopSuccessTrace []).getD [] := by
  decide

/-- Claim C8 as amended: the speaking-stop path holds the session state
lock, the buffer-map lock and the recognizer lock across the transcription
call, and every handler path — append, identity bind, speaking-stop — first
acquires the single session state mutex, which therefore serializes all
event handling; an in-flight finalization for one identifier blocks appends
and drains for every other identifier. -/
theorem c8_amended :
    locksHeldAtTranscribe speakingStopSuccessTrace []
      = some [LockId.stateLock, LockId.audioBufferMapLock, LockId.recognizerLock]
    ∧ LockId.stateLock ∈ acquiredLocks updateAudioBufferTrace
    ∧ LockId.stateLock ∈ acquiredLocks speakingStateUpdateTrace
    ∧ LockId.stateLock ∈ acquiredLocks speakingStopSuccessTrace := by
  refine ⟨rfl, ?_, ?_, ?_⟩ <;> decide

/-- Counterexample to C9: an inbound event outside the five handled kinds
reaches the `_ => unimplemented!()` arm (src/main.rs:218-221) and panics
instead of being a logged no-op. -/
theorem c9_counterexample :
    act (fun _ => none) EventCtx.other stFresh = .error "not implemented" := rfl

/-- Claim C9 as amended: for every inbound event kind other than the five
handled kinds, the handler panics via `unimplemented!` in every state — it
is not a defensively-logged no-op. -/
theorem c9_amended (tr : List Sample → Option String) (st : State) :
    act tr EventCtx.other st = .error "not implemented" := rfl

/-- Claim C10: `update_audio_buffer` is frame-preserving — buffers of other
identifiers and the whole identity map are unchanged, and the target buffer
is only extended: its previous content stays as a prefix, followed by the
packet's non-zero samples. -/
theorem c10_append_frame (st : State) (samples : List Sample) (ssrc other : Nat)
    (h : other ≠ ssrc) :
    (update_audio_buffer samples ssrc st).audio_buffer_map other = st.audio_buffer_map other
    ∧ (update_audio_buffer samples ssrc st).users_ssrc_map = st.users_ssrc_map
    ∧ (update_audio_buffer samples ssrc st).audio_buffer_map ssrc
      = some (((st.audio_buffer_map ssrc).getD []) ++ samples.filter (fun v => v != 0)) := by
  refine ⟨?_, rfl, ?_⟩
  · simp [update_audio_buffer, h]
  · simp [update_audio_buffer]

/-- Witness for C10: appending `[0, 9]` for identifier 7 over a state where
identifier 7 already holds `[5]` leaves identifier 1 and the identity map
untouched and extends the buffer to `[5] ++ [9]`. -/
theorem c10_append_frame_witness :
    (1 : Nat) ≠ 7
    ∧ ((update_audio_buffer [0, 9] 7 stPre).audio_buffer_map 1 = stPre.audio_buffer_map 1
      ∧ (update_audio_buffer [0, 9] 7 stPre).users_ssrc_map = stPre.users_ssrc_map
      ∧ (update_audio_buffer [0, 9] 7 stPre).audio_buffer_map 7
        = some (((stPre.audio_buffer_map 7).getD [])
            ++ ([0, 9] : List Sample).filter (fun v => v != 0))) :=
  ⟨by decide, c10_append_frame stPre [0, 9] 7 1 (by decide)⟩

end DiscordVoice
